import Mathlib

/-!
Verification development for the aether-particles repository.

This file gives a shallow embedding of the parts of the code that the
specification's claims are about — the pattern generators
(src/js/PatternGenerator.js), the One Euro signal filter, the velocity
tracker and the gesture-detection state machine (GestureDetector), and the
particle integrator (ParticleSystem.updatePositions) — together with
theorems settling each claim.

Modelling conventions:
* JavaScript numbers are modelled as real numbers (`ℝ`) where the code does
  real arithmetic (trigonometry, square roots, the filters), as rationals
  (`ℚ`) where only ordered-field comparisons matter (gesture thresholds),
  and as naturals (`ℕ`) for the integer grid bookkeeping of the pattern
  generators.
* `Math.random()` is modelled as an arbitrary externally supplied value
  stream (the claims under study never depend on the sampled values).
* `Math.ceil (Math.sqrt x)` on the integer and small-rational grid data the
  generators use agrees with the exact real `⌈√x⌉`, which is what the model
  computes.
* The special JavaScript values produced by division by zero matter for one
  claim (the pinch normalisation); they are modelled explicitly by `JsNum`
  with `nan` and signed infinities, following IEEE/JS semantics of the
  operations that occur in that code path.
-/

namespace Aether

/-! ## PatternGenerator (src/js/PatternGenerator.js)

Every generator allocates `new Float32Array(count * 3)` and then walks a
grid, emitting one point (three consecutive array entries) per visited cell
at a running index `idx`, each loop guarded by `idx < count` (the pyramid
base loop by `idx < perFace`).  `GenResult` records the allocation size
(`len`) and the final value of `idx` (`written`): entries at positions
`3 * written .. 3 * count - 1` are never stored to and keep the zeroes the
`Float32Array` allocation gives them.  The coordinate values written are
irrelevant to the claims about the generators (they concern lengths and
counts only), so the model tracks the write index, not the trigonometric
coordinate expressions. -/

/-- Model of `Math.ceil (a / b)` for natural `a`, `b` (JS float division is exact on
this data). -/
def ceilDivNat (a b : ℕ) : ℕ := (a + b - 1) / b

/-- Model of `Math.ceil (Math.sqrt n)` for a natural number `n`. -/
def natCeilSqrt (n : ℕ) : ℕ :=
  if Nat.sqrt n * Nat.sqrt n = n then Nat.sqrt n else Nat.sqrt n + 1

/-- A doubly nested `for` loop over `rows × cols` cells in which every
iteration emits one point guarded by `idx < limit`: the final value of the
running index, starting from `idx0`.  (The generators' outer-loop guards
`idx < limit` are redundant given the same guard on the write.) -/
def gridFill (limit rows cols idx0 : ℕ) : ℕ :=
  (List.range rows).foldl
    (fun idx _ => (List.range cols).foldl
      (fun idx _ => if idx < limit then idx + 1 else idx) idx) idx0

/-- A triangular loop `for i < rows, for j ≤ i` emitting one point per
iteration, guarded by `idx < limit` (pyramid's side faces). -/
def triFill (limit rows idx0 : ℕ) : ℕ :=
  (List.range rows).foldl
    (fun idx i => (List.range (i + 1)).foldl
      (fun idx _ => if idx < limit then idx + 1 else idx) idx) idx0

/-- Model of `while (idx < count) { emit; idx++ }` (galaxy's centre-bulge fallback
fill): the final value of the running index. -/
def whileFill (limit idx0 : ℕ) : ℕ := if idx0 < limit then limit else idx0

/-- The result of one generator call: `len` is the `Float32Array` allocation
size `count * 3`; `written` is the number of points actually emitted. -/
structure GenResult where
  len : ℕ
  written : ℕ
  deriving DecidableEq, Repr

/-- Model of `PatternGenerator.sphere` (grid `gridV × gridU`,
`gridV = ceil (sqrt (count / 2))`, `gridU = ceil (count / gridV)`). -/
def sphere (count : ℕ) : GenResult :=
  let gridV := natCeilSqrt (ceilDivNat count 2)
  let gridU := ceilDivNat count gridV
  { len := count * 3, written := gridFill count gridV gridU 0 }

/-- Model of `PatternGenerator.torus` (`gridU = ceil (sqrt (count * 1.5))`,
`gridV = ceil (count / gridU)`). -/
def torus (count : ℕ) : GenResult :=
  let gridU := natCeilSqrt (ceilDivNat (3 * count) 2)
  let gridV := ceilDivNat count gridU
  { len := count * 3, written := gridFill count gridU gridV 0 }

/-- Model of `PatternGenerator.saturn`: a sphere part capped at
`sphereCount = floor (count * 0.7)` followed by a ring part capped at
`count`. -/
def saturn (count : ℕ) : GenResult :=
  let sphereCount := 7 * count / 10
  let ringCount := count - sphereCount
  let gridV := natCeilSqrt (ceilDivNat sphereCount 2)
  let gridU := ceilDivNat sphereCount gridV
  let afterSphere := gridFill sphereCount gridV gridU 0
  let ringGridU := natCeilSqrt (3 * ringCount)
  let ringGridV := ceilDivNat ringCount ringGridU
  { len := count * 3, written := gridFill count ringGridV ringGridU afterSphere }

/-- Model of `PatternGenerator.helix`: two strands of `perStrand = floor (count / 2)`
points each, every write guarded by `idx < count`. -/
def helix (count : ℕ) : GenResult :=
  let perStrand := count / 2
  { len := count * 3, written := gridFill count 2 perStrand 0 }

/-- Model of `PatternGenerator.dna` delegates to `helix`. -/
def dna (count : ℕ) : GenResult := helix count

/-- Model of `PatternGenerator.galaxy`: three spiral arms of
`perArm = floor (count / 3)` points, then a `while (idx < count)`
centre-bulge fallback fill. -/
def galaxy (count : ℕ) : GenResult :=
  let perArm := count / 3
  let afterArms := gridFill count 3 perArm 0
  { len := count * 3, written := whileFill count afterArms }

/-- Model of `PatternGenerator.cube`: six faces, each a `gridSize × gridSize` grid
with `gridSize = ceil (sqrt (floor (count / 6)))`, all writes guarded by
`idx < count`.  There is no fallback fill. -/
def cube (count : ℕ) : GenResult :=
  let perFace := count / 6
  let gridSize := natCeilSqrt perFace
  { len := count * 3
    written := (List.range 6).foldl (fun idx _ => gridFill count gridSize gridSize idx) 0 }

/-- Model of `PatternGenerator.pyramid`: a square base grid whose writes are guarded
by `idx < perFace` (with `perFace = floor (count / 5)`), then four
triangular faces guarded by `idx < count`.  There is no fallback fill. -/
def pyramid (count : ℕ) : GenResult :=
  let perFace := count / 5
  let baseGrid := natCeilSqrt perFace
  let afterBase := gridFill perFace baseGrid baseGrid 0
  let faceGrid := natCeilSqrt perFace
  { len := count * 3
    written := (List.range 4).foldl (fun idx _ => triFill count faceGrid idx) afterBase }

/-- Model of `PatternGenerator.heart` (`gridU = ceil (sqrt (count * 2))`,
`gridV = ceil (count / gridU)`). -/
def heart (count : ℕ) : GenResult :=
  let gridU := natCeilSqrt (2 * count)
  let gridV := ceilDivNat count gridU
  { len := count * 3, written := gridFill count gridU gridV 0 }

/-- Model of `PatternGenerator.star` (`gridU = ceil (sqrt count)`,
`gridV = ceil (count / gridU)`). -/
def star (count : ℕ) : GenResult :=
  let gridU := natCeilSqrt count
  let gridV := ceilDivNat count gridU
  { len := count * 3, written := gridFill count gridU gridV 0 }

/-- Model of `PatternGenerator.wave` (`gridX = ceil (sqrt (count * 100 / 80))`,
`gridZ = ceil (count / gridX)` at the default width `100`, depth `80`). -/
def wave (count : ℕ) : GenResult :=
  let gridX := natCeilSqrt (ceilDivNat (count * 100) 80)
  let gridZ := ceilDivNat count gridX
  { len := count * 3, written := gridFill count gridX gridZ 0 }

/-- Model of `PatternGenerator.infinity` (`gridU = ceil (sqrt (count * 2))`,
`gridV = ceil (count / gridU)`). -/
def infinity (count : ℕ) : GenResult :=
  let gridU := natCeilSqrt (2 * count)
  let gridV := ceilDivNat count gridU
  { len := count * 3, written := gridFill count gridU gridV 0 }

/-- Model of `PatternGenerator.firework`: 16 trails of
`particlesPerTrail = ceil (count / 16)` points, all guarded by
`idx < count`. -/
def firework (count : ℕ) : GenResult :=
  let trails := 16
  let particlesPerTrail := ceilDivNat count trails
  { len := count * 3, written := gridFill count trails particlesPerTrail 0 }

/-- Model of `PatternGenerator.tornado` (`gridU = ceil (sqrt (count * 2))`,
`gridV = ceil (count / gridU)`, loops `i < gridV`, `j < gridU`). -/
def tornado (count : ℕ) : GenResult :=
  let gridU := natCeilSqrt (2 * count)
  let gridV := ceilDivNat count gridU
  { len := count * 3, written := gridFill count gridV gridU 0 }

/-- Model of `PatternGenerator.getPatternNames`. -/
def getPatternNames : List String :=
  ["sphere", "cube", "heart", "galaxy", "dna", "helix", "torus", "saturn",
   "star", "wave", "pyramid", "infinity", "firework", "tornado"]

/-- Property names that a JavaScript bracket lookup on a plain object
literal finds through the prototype chain when they are not own
properties: the members of `Object.prototype`.  Every one of them is a
function (or, for `__proto__`, an object), hence truthy, so
`patterns[name] || patterns.sphere` returns the inherited member itself
for these names instead of falling back to `sphere`. -/
def objectProtoProps : List String :=
  ["constructor", "hasOwnProperty", "isPrototypeOf", "propertyIsEnumerable",
   "toLocaleString", "toString", "valueOf", "__defineGetter__",
   "__defineSetter__", "__lookupGetter__", "__lookupSetter__", "__proto__"]

/-- What `patterns[name] || patterns.sphere` can evaluate to: one of the
pattern generator functions, or a truthy member inherited from
`Object.prototype` (which is not a generator — invoking it does not
produce a positions array at all). -/
inductive PatternLookup where
  | generator : (ℕ → GenResult) → PatternLookup
  | protoMember : String → PatternLookup

/-- Model of `PatternGenerator.getPattern`:
`patterns[name] || patterns.sphere` on the `patterns` object literal with
JavaScript property-lookup semantics.  An own key (one of the 14 pattern
names) yields its generator; otherwise the bracket lookup walks the
prototype chain, so a name that is an `Object.prototype` property yields
that inherited truthy member (the `||` does not fire); only for the
remaining names is the lookup `undefined` (falsy) and the `||` yields the
sphere generator. -/
def getPattern (name : String) : PatternLookup :=
  if name = "sphere" then PatternLookup.generator sphere
  else if name = "cube" then PatternLookup.generator cube
  else if name = "heart" then PatternLookup.generator heart
  else if name = "galaxy" then PatternLookup.generator galaxy
  else if name = "dna" then PatternLookup.generator dna
  else if name = "helix" then PatternLookup.generator helix
  else if name = "torus" then PatternLookup.generator torus
  else if name = "saturn" then PatternLookup.generator saturn
  else if name = "star" then PatternLookup.generator star
  else if name = "wave" then PatternLookup.generator wave
  else if name = "pyramid" then PatternLookup.generator pyramid
  else if name = "infinity" then PatternLookup.generator infinity
  else if name = "firework" then PatternLookup.generator firework
  else if name = "tornado" then PatternLookup.generator tornado
  else if name ∈ objectProtoProps then PatternLookup.protoMember name
  else PatternLookup.generator sphere

/-! ## OneEuroFilter (src/unnamed/part_001, lines 1335-1384)

State: `xPrev` (previous smoothed value, `null` before seeding), `dxPrev`
(previous derivative estimate), `tPrev` (previous timestamp).  `reset()`
returns the state to `init`. -/

/-- The mutable fields of a `OneEuroFilter` instance. -/
structure OneEuroState where
  xPrev : Option ℝ
  dxPrev : ℝ
  tPrev : Option ℝ

/-- Constructor/`reset()` state: `xPrev = null`, `dxPrev = 0`,
`tPrev = null`. -/
def OneEuroState.init : OneEuroState := ⟨none, 0, none⟩

/-- Model of `OneEuroFilter.alpha(cutoff, dt) = 1 / (1 + tau / dt)` with
`tau = 1 / (2 π cutoff)`. -/
noncomputable def euroAlpha (cutoff dt : ℝ) : ℝ :=
  let tau := 1 / (2 * Real.pi * cutoff)
  1 / (1 + tau / dt)

/-- Model of `OneEuroFilter.filter(x, t)` for an instance with coefficients
`minCutoff`, `beta`, `dCutoff`: returns the output value and the updated
state.  First call seeds and returns the raw value; `dt ≤ 0` returns the
previous smoothed value unchanged; otherwise the derivative estimate is
blended at the `dCutoff` frequency, the cutoff adapts by
`minCutoff + beta * |edx|`, and the output blends the raw value with the
previous smoothed value. -/
noncomputable def euroFilter (minCutoff beta dCutoff : ℝ) (s : OneEuroState)
    (x t : ℝ) : ℝ × OneEuroState :=
  match s.xPrev, s.tPrev with
  | some xPrev, some tPrev =>
    let dt := t - tPrev
    if dt ≤ 0 then (xPrev, s)
    else
      let dx := (x - xPrev) / dt
      let edx := euroAlpha dCutoff dt * dx + (1 - euroAlpha dCutoff dt) * s.dxPrev
      let cutoff := minCutoff + beta * |edx|
      let filtered := euroAlpha cutoff dt * x + (1 - euroAlpha cutoff dt) * xPrev
      (filtered, ⟨some filtered, edx, some t⟩)
  | _, _ => (x, ⟨some x, s.dxPrev, some t⟩)

/-- Running a `OneEuroFilter` instance over a stream of
(raw value, timestamp) samples, collecting the outputs. -/
noncomputable def euroRun (minCutoff beta dCutoff : ℝ) (s : OneEuroState) :
    List (ℝ × ℝ) → List ℝ
  | [] => []
  | (x, t) :: rest =>
    let r := euroFilter minCutoff beta dCutoff s x t
    r.1 :: euroRun minCutoff beta dCutoff r.2 rest

/-! ## VelocityTracker (src/unnamed/part_001, lines 1389-1433) -/

/-- A 3D point / vector, the `{x, y, z}` records of the JavaScript code. -/
structure V3 where
  x : ℝ
  y : ℝ
  z : ℝ

/-- The `{x, y, z, magnitude}` velocity record. -/
structure VelRec where
  x : ℝ
  y : ℝ
  z : ℝ
  magnitude : ℝ

/-- The mutable fields of a `VelocityTracker` instance. -/
structure TrackerState where
  positions : List V3
  timestamps : List ℝ

/-- Constructor/`reset()` state: empty history. -/
def TrackerState.init : TrackerState := ⟨[], []⟩

/-- Model of `VelocityTracker.update(position, t)`: push the sample, keep only the
most recent `historyLength` samples. -/
def trackerUpdate (historyLength : ℕ) (s : TrackerState) (p : V3) (t : ℝ) :
    TrackerState :=
  let ps := s.positions ++ [p]
  let ts := s.timestamps ++ [t]
  if historyLength < ps.length then ⟨ps.tail, ts.tail⟩ else ⟨ps, ts⟩

/-! ## GestureDetector threshold logic (src/unnamed/part_001)

The gesture classification and pinch-edge logic operate on already-filtered
scalar values by order comparisons only; they are modelled parametrically in
those values. -/

/-- The five per-finger curl values (`this.fingerCurls`). -/
structure FingerCurls where
  thumb : ℝ
  index : ℝ
  middle : ℝ
  ring : ℝ
  pinky : ℝ

/-- Model of `GestureDetector.detectSpecialGestures` (lines 1827-1885): the
classification of the current frame from the finger curls, the (stale)
`isPinching` flag and the current pinch value, returning the gesture label
and its confidence. -/
noncomputable def detectSpecialGestures (curls : FingerCurls)
    (isPinching : Bool) (pinchValue : ℝ) : String × ℝ :=
  let isThumbsUp := curls.thumb < 0.4 ∧ curls.index > 0.7 ∧
    curls.middle > 0.7 ∧ curls.ring > 0.7 ∧ curls.pinky > 0.7
  let isPeace := curls.thumb > 0.5 ∧ curls.index < 0.3 ∧ curls.middle < 0.3 ∧
    curls.ring > 0.6 ∧ curls.pinky > 0.6
  let isFist := curls.thumb > 0.5 ∧ curls.index > 0.7 ∧ curls.middle > 0.7 ∧
    curls.ring > 0.7 ∧ curls.pinky > 0.7
  let isOpen := curls.index < 0.3 ∧ curls.middle < 0.3 ∧ curls.ring < 0.4 ∧
    curls.pinky < 0.4
  if isPinching then ("pinch", pinchValue)
  else if isThumbsUp then ("thumbsUp", 0.9)
  else if isPeace then ("peace", 0.9)
  else if isFist then ("fist", 0.9)
  else if isOpen then ("open", 0.8)
  else ("none", 0)

/-- The special-gesture classification exactly as the specification words
it: the first match in the fixed priority order
pinch > thumbsUp > peace > fist > open > none, with the stated curl
thresholds, confidence 0.9 for thumbsUp/peace/fist, 0.8 for open, the
current pinch value for pinch and 0 for none.  Stated independently of the
source function so the two can be compared. -/
noncomputable def gestureClaimSpec (curls : FingerCurls)
    (isPinching : Bool) (pinchValue : ℝ) : String × ℝ :=
  if isPinching then ("pinch", pinchValue)
  else if curls.thumb < 0.4 ∧ curls.index > 0.7 ∧ curls.middle > 0.7 ∧
      curls.ring > 0.7 ∧ curls.pinky > 0.7 then ("thumbsUp", 0.9)
  else if curls.thumb > 0.5 ∧ curls.index < 0.3 ∧ curls.middle < 0.3 ∧
      curls.ring > 0.6 ∧ curls.pinky > 0.6 then ("peace", 0.9)
  else if curls.thumb > 0.5 ∧ curls.index > 0.7 ∧ curls.middle > 0.7 ∧
      curls.ring > 0.7 ∧ curls.pinky > 0.7 then ("fist", 0.9)
  else if curls.index < 0.3 ∧ curls.middle < 0.3 ∧ curls.ring < 0.4 ∧
      curls.pinky < 0.4 then ("open", 0.8)
  else ("none", 0)

/-- The pinch-edge step of `onResults` (lines 1569-1576): from the previous
`isPinching` flag and the current filtered pinch value, the new flag and
whether `onPinchStart` / `onPinchEnd` fire on this frame
(`pinchThreshold = 0.7`). -/
noncomputable def pinchStep (wasPinching : Bool) (pinchValue : ℝ) :
    Bool × Bool × Bool :=
  let isPinching := decide (pinchValue > 0.7)
  (isPinching, isPinching && !wasPinching, !isPinching && wasPinching)

/-- The pinch-edge machine run over the per-frame filtered pinch values of a
run of consecutive hand-present frames. -/
noncomputable def pinchTrace (wasPinching : Bool) :
    List ℝ → List (Bool × Bool × Bool)
  | [] => []
  | p :: ps => pinchStep wasPinching p :: pinchTrace (pinchStep wasPinching p).1 ps

/-- The behaviour the specification describes, computed directly from the
value stream with no machine state: on each frame the flag is exactly
`pinchValue > 0.7`, a start event fires exactly on an upward crossing of
0.7 and an end event exactly on a downward crossing (comparing with the
previous frame's comparison, or with the incoming flag for the first
frame). -/
noncomputable def pinchCrossings (wasPinching : Bool) (ps : List ℝ) :
    List (Bool × Bool × Bool) :=
  let states := ps.map (fun p => decide (p > 0.7))
  List.zipWith (fun cur prev => (cur, cur && !prev, !cur && prev))
    states (wasPinching :: states)

/-- The detector fields involved in the ordering of `onResults`'s
hand-present branch (lines 1554-1576). -/
structure GDState where
  pinchValue : ℝ
  isPinching : Bool
  currentGesture : String
  gestureConfidence : ℝ

/-- The gesture/pinch part of a hand-present `onResults` tick, parametric in
the frame's finger curls and freshly filtered pinch value: line 1563 stores
the new pinch value, line 1566 runs `detectSpecialGestures` (which reads the
`isPinching` flag of the previous frame), and only then line 1570 updates
`isPinching` from the new pinch value. -/
noncomputable def gestureTick (s : GDState) (curls : FingerCurls)
    (newPinch : ℝ) : GDState :=
  let pinchValue := newPinch
  let g := detectSpecialGestures curls s.isPinching pinchValue
  let isPinching := decide (pinchValue > 0.7)
  { pinchValue := pinchValue
    isPinching := isPinching
    currentGesture := g.1
    gestureConfidence := g.2 }

/-! ## GestureDetector hand-loss handling (src/unnamed/part_001)

`onResults`'s no-hand branch (lines 1611-1627) and `resetFilters`
(lines 1924-1929).  The openness filter has coefficients
`(1.0, 0.007, 1.0)`, the pinch filter `(1.0, 0.01, 1.0)`
(lines 1451-1452). -/

/-- The detector fields involved in hand loss. -/
structure DetectorState where
  isHandDetected : Bool
  twoHandsDetected : Bool
  opennessFilter : OneEuroState
  pinchFilter : OneEuroState
  palmTracker : TrackerState
  velocity : VelRec
  gestureValue : ℝ
  pinchValue : ℝ

/-- Model of `GestureDetector.resetFilters` (lines 1924-1929): reset both One Euro
filters, the palm velocity tracker, and zero the velocity record. -/
def resetFilters (s : DetectorState) : DetectorState :=
  { s with
    opennessFilter := OneEuroState.init
    pinchFilter := OneEuroState.init
    palmTracker := TrackerState.init
    velocity := ⟨0, 0, 0, 0⟩ }

/-- The no-hand branch of `onResults` (lines 1611-1627) at timestamp `t`:
if a hand was detected, clear the detection flags, reset all filters and
fire `onHandLost` (the returned Bool); then drive the openness filter with
the neutral value 0.5 and the pinch filter with 0. -/
noncomputable def noHandTick (s : DetectorState) (t : ℝ) :
    DetectorState × Bool :=
  let lost :=
    if s.isHandDetected then
      ({ resetFilters s with
          isHandDetected := false
          twoHandsDetected := false }, true)
    else (s, false)
  let s1 := lost.1
  let g := euroFilter 1 0.007 1 s1.opennessFilter 0.5 t
  let p := euroFilter 1 0.01 1 s1.pinchFilter 0 t
  ({ s1 with
      opennessFilter := g.2
      pinchFilter := p.2
      gestureValue := g.1
      pinchValue := p.1 }, lost.2)

/-- A concrete pre-loss detector state: a hand is currently detected and the
last smoothed openness and pinch values are both 1. -/
noncomputable def preLossState : DetectorState :=
  { isHandDetected := true
    twoHandsDetected := false
    opennessFilter := ⟨some 1, 0, some 0⟩
    pinchFilter := ⟨some 1, 0, some 0⟩
    palmTracker := ⟨[⟨0, 0, 0⟩], [0]⟩
    velocity := ⟨0, 0, 0, 0⟩
    gestureValue := 1
    pinchValue := 1 }

/-! ## GestureDetector geometry (src/unnamed/part_001)

`angleBetweenVectors` (lines 1730-1739), `calculateFingerCurl`
(lines 1708-1725), `calculateFingerCurls` (lines 1675-1703),
`distance3D` (lines 1914-1919) and `calculatePinchValue`
(lines 1766-1785) over the 21-point landmark frame. -/

/-- A hand-landmark frame: 21 points indexed as in `this.LANDMARKS`
(0 wrist; 1-4 thumb CMC/MCP/IP/TIP; 5-8 index MCP/PIP/DIP/TIP; 9-12 middle;
13-16 ring; 17-20 pinky). -/
def Landmarks : Type := Fin 21 → V3

/-- Model of `GestureDetector.angleBetweenVectors` (lines 1730-1739): the angle
between two vectors; a zero magnitude yields `π` instead of dividing by
zero, and the cosine is clamped to `[-1, 1]` before `acos`. -/
noncomputable def angleBetweenVectors (v1 v2 : V3) : ℝ :=
  let dot := v1.x * v2.x + v1.y * v2.y + v1.z * v2.z
  let mag1 := Real.sqrt (v1.x * v1.x + v1.y * v1.y + v1.z * v1.z)
  let mag2 := Real.sqrt (v2.x * v2.x + v2.y * v2.y + v2.z * v2.z)
  if mag1 = 0 ∨ mag2 = 0 then Real.pi
  else Real.arccos (max (-1) (min 1 (dot / (mag1 * mag2))))

/-- Model of `GestureDetector.calculateFingerCurl` (lines 1708-1725): curl of one
finger from its four joints, `1 - ((angle₁ + angle₂) / 2) / π` clamped to
`[0, 1]`. -/
noncomputable def calculateFingerCurl (mcp pip dip tip : V3) : ℝ :=
  let v1 : V3 := ⟨pip.x - mcp.x, pip.y - mcp.y, pip.z - mcp.z⟩
  let v2 : V3 := ⟨dip.x - pip.x, dip.y - pip.y, dip.z - pip.z⟩
  let v3 : V3 := ⟨tip.x - dip.x, tip.y - dip.y, tip.z - dip.z⟩
  let angle1 := angleBetweenVectors v1 v2
  let angle2 := angleBetweenVectors v2 v3
  let avgAngle := (angle1 + angle2) / 2
  let curl := 1 - avgAngle / Real.pi
  max 0 (min 1 curl)

/-- Model of `GestureDetector.calculateFingerCurls` (lines 1675-1703): the five
per-finger curls of a landmark frame. -/
noncomputable def calculateFingerCurls (lm : Landmarks) : FingerCurls :=
  { thumb := calculateFingerCurl (lm 1) (lm 2) (lm 3) (lm 4)
    index := calculateFingerCurl (lm 5) (lm 6) (lm 7) (lm 8)
    middle := calculateFingerCurl (lm 9) (lm 10) (lm 11) (lm 12)
    ring := calculateFingerCurl (lm 13) (lm 14) (lm 15) (lm 16)
    pinky := calculateFingerCurl (lm 17) (lm 18) (lm 19) (lm 20) }

/-- Uniform scaling by `k` followed by translation by `tv`, applied to every
landmark of a frame. -/
def scaleTranslate (k : ℝ) (tv : V3) (lm : Landmarks) : Landmarks :=
  fun i => ⟨k * (lm i).x + tv.x, k * (lm i).y + tv.y, k * (lm i).z + tv.z⟩

/-- Model of `GestureDetector.distance3D` (lines 1914-1919). -/
noncomputable def distance3D (p1 p2 : V3) : ℝ :=
  Real.sqrt ((p1.x - p2.x) * (p1.x - p2.x) + (p1.y - p2.y) * (p1.y - p2.y) +
    (p1.z - p2.z) * (p1.z - p2.z))

/-- A JavaScript number as produced by the pinch-normalisation code path:
either an ordinary (real) value or one of the IEEE special values `NaN`,
`+Infinity`, `-Infinity` that division by zero introduces. -/
inductive JsNum where
  | nan : JsNum
  | posInf : JsNum
  | negInf : JsNum
  | val : ℝ → JsNum

/-- JavaScript division of two finite numbers: `0 / 0 = NaN`,
`a / 0 = ±Infinity` for `a ≠ 0` (both operands here are nonnegative
distances, so the negative-zero denominator case cannot arise). -/
noncomputable def jsDiv (a b : ℝ) : JsNum :=
  if b = 0 then (if a = 0 then JsNum.nan else if a > 0 then JsNum.posInf
    else JsNum.negInf)
  else JsNum.val (a / b)

/-- Subtracting a finite constant in JavaScript (`NaN` and infinities are
absorbing). -/
def jsSubC (a : JsNum) (c : ℝ) : JsNum :=
  match a with
  | JsNum.nan => JsNum.nan
  | JsNum.posInf => JsNum.posInf
  | JsNum.negInf => JsNum.negInf
  | JsNum.val x => JsNum.val (x - c)

/-- Dividing by a positive finite constant in JavaScript. -/
noncomputable def jsDivPosC (a : JsNum) (c : ℝ) : JsNum :=
  match a with
  | JsNum.nan => JsNum.nan
  | JsNum.posInf => JsNum.posInf
  | JsNum.negInf => JsNum.negInf
  | JsNum.val x => JsNum.val (x / c)

/-- Model of `Math.min(c, a)` for a finite constant `c`: `NaN` propagates. -/
noncomputable def jsMinC (c : ℝ) (a : JsNum) : JsNum :=
  match a with
  | JsNum.nan => JsNum.nan
  | JsNum.posInf => JsNum.val c
  | JsNum.negInf => JsNum.negInf
  | JsNum.val x => JsNum.val (min c x)

/-- Model of `Math.max(c, a)` for a finite constant `c`: `NaN` propagates. -/
noncomputable def jsMaxC (c : ℝ) (a : JsNum) : JsNum :=
  match a with
  | JsNum.nan => JsNum.nan
  | JsNum.posInf => JsNum.posInf
  | JsNum.negInf => JsNum.val c
  | JsNum.val x => JsNum.val (max c x)

/-- Model of `1 - a` in JavaScript. -/
def jsOneSub (a : JsNum) : JsNum :=
  match a with
  | JsNum.nan => JsNum.nan
  | JsNum.posInf => JsNum.negInf
  | JsNum.negInf => JsNum.posInf
  | JsNum.val x => JsNum.val (1 - x)

/-- Model of `GestureDetector.calculatePinchValue` (lines 1766-1785): the thumb-tip
to index-tip distance, normalised by the index-MCP to wrist distance, mapped
through `1 - clamp((d - 0.1) / 0.7, 0, 1)`.  The normalising division is the
only operation that can leave the reals, so the pipeline after it is
modelled on `JsNum`. -/
noncomputable def calculatePinchValue (lm : Landmarks) : JsNum :=
  let distance := distance3D (lm 4) (lm 8)
  let refDist := distance3D (lm 5) (lm 0)
  let normalizedDist := jsDiv distance refDist
  jsOneSub (jsMaxC 0 (jsMinC 1 (jsDivPosC (jsSubC normalizedDist 0.1) 0.7)))

/-! ## ParticleSystem.updatePositions (src/unnamed/part_002, lines 925-1000)

One integrator tick for one particle: damped Euler integration of the morph
force toward `base * currentScale`, plus explosion, turbulence, audio
displacement and the idle-floating offset.  `Math.random()` is the supplied
`rnd` triple; `this.time` is the supplied `time`. -/

/-- One `updatePositions` step for particle `i`, returning the new
(position, velocity). -/
noncomputable def psTick (damping morphForce currentScale explosionForce
    turbulence audioInfluence idleAmplitude idleSpeed time : ℝ) (i : ℕ)
    (rnd : V3) (base pos vel : V3) : V3 × V3 :=
  let targetX := base.x * currentScale
  let targetY := base.y * currentScale
  let targetZ := base.z * currentScale
  let dist := Real.sqrt (pos.x * pos.x + pos.y * pos.y + pos.z * pos.z)
  let dirX := if dist > 0 then pos.x / dist else 0
  let dirY := if dist > 0 then pos.y / dist else 0
  let dirZ := if dist > 0 then pos.z / dist else 0
  let morphX := (targetX - pos.x) * morphForce
  let morphY := (targetY - pos.y) * morphForce
  let morphZ := (targetZ - pos.z) * morphForce
  let explosionX := dirX * explosionForce * 5
  let explosionY := dirY * explosionForce * 5
  let explosionZ := dirZ * explosionForce * 5
  let turbX := (rnd.x - 0.5) * turbulence * 2
  let turbY := (rnd.y - 0.5) * turbulence * 2
  let turbZ := (rnd.z - 0.5) * turbulence * 2
  let audioMoveX := audioInfluence * dirX * Real.sin (time * 5 + i * 0.1) * 2
  let audioMoveY := audioInfluence * dirY * Real.sin (time * 5 + i * 0.1) * 2
  let audioMoveZ := audioInfluence * dirZ * Real.sin (time * 5 + i * 0.1) * 2
  let velX := (vel.x + morphX + explosionX + turbX + audioMoveX) * damping
  let velY := (vel.y + morphY + explosionY + turbY + audioMoveY) * damping
  let velZ := (vel.z + morphZ + explosionZ + turbZ + audioMoveZ) * damping
  let posX := pos.x + velX
  let posY := pos.y + velY
  let posZ := pos.z + velZ
  let idleFactor := 1 - turbulence * 0.8
  let idleOffset := Real.sin (time * idleSpeed * 1000 + i * 0.01) * idleAmplitude * idleFactor
  let posX2 := posX + Real.sin (time + i * 0.1) * idleOffset * 0.05
  let posY2 := posY + idleOffset * 0.5
  let posZ2 := posZ + Real.cos (time + i * 0.1) * idleOffset * 0.05
  (⟨posX2, posY2, posZ2⟩, ⟨velX, velY, velZ⟩)

/-- The trajectory of particle `i` under repeated `updatePositions` ticks
with fixed scalar parameters, per-tick random values `rnds` and per-tick
clock values `times`. -/
noncomputable def psTraj (damping morphForce currentScale explosionForce
    turbulence audioInfluence idleAmplitude idleSpeed : ℝ)
    (times : ℕ → ℝ) (rnds : ℕ → V3) (i : ℕ) (base p0 v0 : V3) :
    ℕ → V3 × V3
  | 0 => (p0, v0)
  | n + 1 =>
    let s := psTraj damping morphForce currentScale explosionForce turbulence
      audioInfluence idleAmplitude idleSpeed times rnds i base p0 v0 n
    psTick damping morphForce currentScale explosionForce turbulence
      audioInfluence idleAmplitude idleSpeed (times n) i (rnds n) base s.1 s.2

/-- The per-axis error/velocity recurrence that one zero-forcing
`updatePositions` tick induces on `(position - target, velocity)`:
`v' = (v - m e) d`, `e' = e + v'`. -/
def errStep (d m : ℝ) (ev : ℝ × ℝ) : ℝ × ℝ :=
  ((1 - d * m) * ev.1 + d * ev.2, d * ev.2 - d * m * ev.1)

/-- Iterates of `errStep`. -/
def errSeq (d m e0 v0 : ℝ) : ℕ → ℝ × ℝ
  | 0 => (e0, v0)
  | n + 1 => errStep d m (errSeq d m e0 v0 n)

/-! ## Theorems

### Loop lemmas for the generator write counters -/

theorem foldl_guard_eq {α : Type} (l : ℕ) (xs : List α) (i : ℕ) :
    xs.foldl (fun idx _ => if idx < l then idx + 1 else idx) i =
      if i < l then min l (i + xs.length) else i := by
  induction xs generalizing i with
  | nil =>
    simp only [List.foldl_nil, List.length_nil, Nat.add_zero]
    split_ifs with h
    · exact (min_eq_right h.le).symm
    · rfl
  | cons x xs ih =>
    simp only [List.foldl_cons, List.length_cons]
    rw [ih]
    split_ifs <;> omega

theorem foldl_guard_le {α : Type} (l : ℕ) (xs : List α) (i : ℕ) (h : i ≤ l) :
    xs.foldl (fun idx _ => if idx < l then idx + 1 else idx) i ≤ l := by
  rw [foldl_guard_eq]
  split_ifs <;> omega

theorem foldl_preserve {α : Type} {l : ℕ} {f : ℕ → α → ℕ}
    (hf : ∀ i a, i ≤ l → f i a ≤ l) :
    ∀ (xs : List α) (i : ℕ), i ≤ l → xs.foldl f i ≤ l := by
  intro xs
  induction xs with
  | nil => intro i h; simpa using h
  | cons x xs ih => intro i h; exact ih _ (hf i x h)

theorem gridFill_eq (l r c i : ℕ) :
    gridFill l r c i = if i < l then min l (i + r * c) else i := by
  unfold gridFill
  induction r with
  | zero =>
    simp only [List.range_zero, List.foldl_nil, Nat.zero_mul, Nat.add_zero]
    split_ifs with h
    · exact (min_eq_right h.le).symm
    · rfl
  | succ r ih =>
    rw [List.range_succ, List.foldl_append, ih]
    simp only [List.foldl_cons, List.foldl_nil]
    rw [foldl_guard_eq, List.length_range]
    have hm : (r + 1) * c = r * c + c := by ring
    rw [hm]
    split_ifs <;> omega

theorem gridFill_le (l r c i : ℕ) (h : i ≤ l) : gridFill l r c i ≤ l := by
  rw [gridFill_eq]
  split_ifs <;> omega

theorem gridFill_exact (l r c : ℕ) (hcap : l ≤ r * c) : gridFill l r c 0 = l := by
  rw [gridFill_eq]
  split_ifs <;> omega

theorem triFill_le (l r i : ℕ) (h : i ≤ l) : triFill l r i ≤ l := by
  unfold triFill
  exact foldl_preserve (fun j a hj => foldl_guard_le l _ j hj) _ i h

theorem natCeilSqrt_sq_ge (n : ℕ) : n ≤ natCeilSqrt n * natCeilSqrt n := by
  unfold natCeilSqrt
  split_ifs with h
  · omega
  · have h2 := Nat.lt_succ_sqrt n
    simp only [Nat.succ_eq_add_one] at h2
    omega

theorem natCeilSqrt_pos (n : ℕ) (h : 1 ≤ n) : 1 ≤ natCeilSqrt n := by
  unfold natCeilSqrt
  have hs : 0 < Nat.sqrt n := Nat.sqrt_pos.mpr h
  split_ifs <;> omega

theorem ceilDivNat_spec (a b : ℕ) (hb : 0 < b) : a ≤ b * ceilDivNat a b := by
  have h : ceilDivNat a b = a ⌈/⌉ b := (Nat.ceilDiv_eq_add_pred_div a b).symm
  rw [h]
  exact (ceilDiv_le_iff_le_mul hb).1 le_rfl

/-! ### Write counts of the individual generators -/

theorem sphere_written (c : ℕ) (hc : 1 ≤ c) : (sphere c).written = c := by
  simp only [sphere]
  have h2 : 1 ≤ ceilDivNat c 2 := by unfold ceilDivNat; omega
  have hV := natCeilSqrt_pos _ h2
  exact gridFill_exact _ _ _ (ceilDivNat_spec c _ hV)

theorem torus_written (c : ℕ) (hc : 1 ≤ c) : (torus c).written = c := by
  simp only [torus]
  have h2 : 1 ≤ ceilDivNat (3 * c) 2 := by unfold ceilDivNat; omega
  have hU := natCeilSqrt_pos _ h2
  exact gridFill_exact _ _ _ (ceilDivNat_spec c _ hU)

theorem saturn_written (c : ℕ) (hc : 1 ≤ c) : (saturn c).written = c := by
  simp only [saturn]
  have hsc : 7 * c / 10 < c := by omega
  have hrc : 1 ≤ c - 7 * c / 10 := by omega
  have hU := natCeilSqrt_pos _ (by omega : 1 ≤ 3 * (c - 7 * c / 10))
  have hcap := ceilDivNat_spec (c - 7 * c / 10) _ hU
  have hafter : gridFill (7 * c / 10)
      (natCeilSqrt (ceilDivNat (7 * c / 10) 2))
      (ceilDivNat (7 * c / 10) (natCeilSqrt (ceilDivNat (7 * c / 10) 2))) 0 =
      7 * c / 10 := by
    rcases Nat.eq_zero_or_pos (7 * c / 10) with h0 | hpos
    · rw [h0, gridFill_eq]; simp
    · have h2 : 1 ≤ ceilDivNat (7 * c / 10) 2 := by unfold ceilDivNat; omega
      have hV := natCeilSqrt_pos _ h2
      exact gridFill_exact _ _ _ (ceilDivNat_spec _ _ hV)
  rw [hafter, gridFill_eq, if_pos hsc]
  have hmc := Nat.mul_comm
    (ceilDivNat (c - 7 * c / 10) (natCeilSqrt (3 * (c - 7 * c / 10))))
    (natCeilSqrt (3 * (c - 7 * c / 10)))
  omega

theorem heart_written (c : ℕ) (hc : 1 ≤ c) : (heart c).written = c := by
  simp only [heart]
  have hU := natCeilSqrt_pos (2 * c) (by omega)
  exact gridFill_exact _ _ _ (ceilDivNat_spec c _ hU)

theorem star_written (c : ℕ) (hc : 1 ≤ c) : (star c).written = c := by
  simp only [star]
  have hU := natCeilSqrt_pos c hc
  exact gridFill_exact _ _ _ (ceilDivNat_spec c _ hU)

theorem wave_written (c : ℕ) (hc : 1 ≤ c) : (wave c).written = c := by
  simp only [wave]
  have h2 : 1 ≤ ceilDivNat (c * 100) 80 := by unfold ceilDivNat; omega
  have hX := natCeilSqrt_pos _ h2
  exact gridFill_exact _ _ _ (ceilDivNat_spec c _ hX)

theorem infinity_written (c : ℕ) (hc : 1 ≤ c) : (infinity c).written = c := by
  simp only [infinity]
  have hU := natCeilSqrt_pos (2 * c) (by omega)
  exact gridFill_exact _ _ _ (ceilDivNat_spec c _ hU)

theorem firework_written (c : ℕ) (hc : 1 ≤ c) : (firework c).written = c := by
  simp only [firework]
  exact gridFill_exact _ _ _ (ceilDivNat_spec c 16 (by omega))

theorem tornado_written (c : ℕ) (hc : 1 ≤ c) : (tornado c).written = c := by
  simp only [tornado]
  have hU := natCeilSqrt_pos (2 * c) (by omega)
  have hcap := ceilDivNat_spec c _ hU
  rw [gridFill_exact]
  calc c ≤ natCeilSqrt (2 * c) * ceilDivNat c (natCeilSqrt (2 * c)) := hcap
    _ = ceilDivNat c (natCeilSqrt (2 * c)) * natCeilSqrt (2 * c) := Nat.mul_comm _ _

theorem galaxy_written (c : ℕ) (_hc : 1 ≤ c) : (galaxy c).written = c := by
  simp only [galaxy, whileFill]
  have h1 := gridFill_le c 3 (c / 3) 0 (by omega)
  split_ifs with h2 <;> omega

theorem cube_written_le (c : ℕ) : (cube c).written ≤ c := by
  simp only [cube]
  exact foldl_preserve (fun i a hi => gridFill_le _ _ _ _ hi) _ 0 (by omega)

theorem pyramid_written_le (c : ℕ) : (pyramid c).written ≤ c := by
  simp only [pyramid]
  have hbase : gridFill (c / 5) (natCeilSqrt (c / 5)) (natCeilSqrt (c / 5)) 0 ≤ c := by
    have := gridFill_le (c / 5) (natCeilSqrt (c / 5)) (natCeilSqrt (c / 5)) 0 (by omega)
    omega
  exact foldl_preserve (fun i a hi => triFill_le _ _ _ hi) _ _ hbase

theorem helix_written_le (c : ℕ) : (helix c).written ≤ c := by
  simp only [helix]
  exact gridFill_le _ _ _ _ (by omega)

/-! ### Claim C1 -/

/-- C1 counterexample: the name "toString" is not a pattern name, yet the
lookup `patterns["toString"]` finds the inherited, truthy
`Object.prototype.toString` through the prototype chain, so
`patterns[name] || patterns.sphere` returns that member — not the sphere
generator (not a generator at all), and invoking it does not return a
`3 * c` positions array.  This refutes the claim's "unknown names resolve
to the sphere generator via the lookup function" and with it the length
guarantee at this name. -/
theorem claim1_pattern_length_counterexample :
    getPattern ("toString") = PatternLookup.protoMember ("toString") ∧
      getPattern ("toString") ≠ PatternLookup.generator sphere ∧
      ("toString" : String) ∉ getPatternNames := by
  have h1 : getPattern ("toString") = PatternLookup.protoMember ("toString") :=
    rfl
  refine ⟨h1, ?_, by decide⟩
  rw [h1]
  intro h
  exact PatternLookup.noConfusion h

/-- C1 as amended: for every count `c ≥ 1`, whenever the lookup resolves a
name to a pattern generator — every known name, and every unknown name
that is not an `Object.prototype` property — the returned array has length
exactly `3 * c` (it is allocated as `new Float32Array(count * 3)`
unconditionally), and the unknown non-prototype names resolve to the
sphere generator; but an unknown name that is an `Object.prototype`
property resolves, through the prototype chain and the truthiness check,
to that inherited member instead of the sphere generator. -/
theorem lookup_len_ite (p : Prop) [Decidable p] (f g : PatternLookup)
    (c : ℕ)
    (hf : ∀ gen, f = PatternLookup.generator gen → (gen c).len = 3 * c)
    (hg : ∀ gen, g = PatternLookup.generator gen → (gen c).len = 3 * c) :
    ∀ gen, (if p then f else g) = PatternLookup.generator gen →
      (gen c).len = 3 * c := by
  intro gen h
  by_cases hp : p
  · rw [if_pos hp] at h
    exact hf gen h
  · rw [if_neg hp] at h
    exact hg gen h

theorem claim1_pattern_length_amended (name : String) (c : ℕ)
    (_hc : 1 ≤ c) :
    (∀ g, getPattern name = PatternLookup.generator g → (g c).len = 3 * c) ∧
      (name ∉ getPatternNames → name ∉ objectProtoProps →
        getPattern name = PatternLookup.generator sphere) ∧
      (name ∉ getPatternNames → name ∈ objectProtoProps →
        getPattern name = PatternLookup.protoMember name) := by
  refine ⟨?_, ?_, ?_⟩
  · unfold getPattern
    repeat
      first
        | apply lookup_len_ite
        | (intro g hg
           exact PatternLookup.noConfusion hg)
        | (intro g hg
           injection hg with h
           subst h
           simp only [Nat.mul_comm 3 c]
           rfl)
  · intro hn hp
    simp only [getPatternNames, List.mem_cons, not_or] at hn
    obtain ⟨n1, n2, n3, n4, n5, n6, n7, n8, n9, n10, n11, n12, n13, n14, _⟩ :=
      hn
    unfold getPattern
    rw [if_neg n1, if_neg n2, if_neg n3, if_neg n4, if_neg n5, if_neg n6,
      if_neg n7, if_neg n8, if_neg n9, if_neg n10, if_neg n11, if_neg n12,
      if_neg n13, if_neg n14, if_neg hp]
  · intro hn hp
    simp only [getPatternNames, List.mem_cons, not_or] at hn
    obtain ⟨n1, n2, n3, n4, n5, n6, n7, n8, n9, n10, n11, n12, n13, n14, _⟩ :=
      hn
    unfold getPattern
    rw [if_neg n1, if_neg n2, if_neg n3, if_neg n4, if_neg n5, if_neg n6,
      if_neg n7, if_neg n8, if_neg n9, if_neg n10, if_neg n11, if_neg n12,
      if_neg n13, if_neg n14, if_pos hp]

/-- Witness for the amended C1 at the unknown non-prototype name "nosuch"
and `c = 5`. -/
theorem claim1_pattern_length_amended_witness :
    1 ≤ 5 ∧
      ((∀ g, getPattern ("nosuch") = PatternLookup.generator g →
          (g 5).len = 3 * 5) ∧
        (("nosuch" : String) ∉ getPatternNames →
          ("nosuch" : String) ∉ objectProtoProps →
          getPattern ("nosuch") = PatternLookup.generator sphere) ∧
        (("nosuch" : String) ∉ getPatternNames →
          ("nosuch" : String) ∈ objectProtoProps →
          getPattern ("nosuch") = PatternLookup.protoMember ("nosuch"))) :=
  ⟨by norm_num, claim1_pattern_length_amended ("nosuch") 5 (by norm_num)⟩

/-! ### Claim C2 -/

/-- C2 counterexample: `cube` at count 7 emits only 6 points, `pyramid` at
count 6 only 5, `helix` at count 3 only 2 — these generators have no
fallback fill, so the remaining positions are never written (they keep the
allocation's zeroes), contradicting the claim that every generator emits
exactly `count` points. -/
theorem claim2_exact_count_counterexample :
    (cube 7).written = 6 ∧ ¬ (cube 7).written = 7 ∧
      (pyramid 6).written = 5 ∧ ¬ (pyramid 6).written = 6 ∧
      (helix 3).written = 2 ∧ ¬ (helix 3).written = 3 := by
  refine ⟨by decide, by decide, by decide, by decide, by decide, by decide⟩

/-- C2 as amended: every generator truncates (never emits more than
`count`); `sphere`, `torus`, `saturn`, `heart`, `star`, `wave`, `infinity`,
`firework`, `tornado` always fill their grids and `galaxy` fills through its
centre-bulge fallback, so they emit exactly `count`; but `cube`, `pyramid`
and `helix`/`dna` have no fallback and can emit fewer than `count` points,
leaving the trailing entries of the returned array unwritten. -/
theorem claim2_exact_count_amended (c : ℕ) (hc : 1 ≤ c) :
    (sphere c).written = c ∧ (torus c).written = c ∧ (saturn c).written = c ∧
      (heart c).written = c ∧ (star c).written = c ∧ (wave c).written = c ∧
      (infinity c).written = c ∧ (firework c).written = c ∧
      (tornado c).written = c ∧ (galaxy c).written = c ∧
      (cube c).written ≤ c ∧ (pyramid c).written ≤ c ∧
      (helix c).written ≤ c ∧ (dna c).written ≤ c :=
  ⟨sphere_written c hc, torus_written c hc, saturn_written c hc,
    heart_written c hc, star_written c hc, wave_written c hc,
    infinity_written c hc, firework_written c hc, tornado_written c hc,
    galaxy_written c hc, cube_written_le c, pyramid_written_le c,
    helix_written_le c, helix_written_le c⟩

/-- Witness for the amended C2 at `c = 7`. -/
theorem claim2_exact_count_amended_witness :
    1 ≤ 7 ∧ ((sphere 7).written = 7 ∧ (torus 7).written = 7 ∧
      (saturn 7).written = 7 ∧ (heart 7).written = 7 ∧ (star 7).written = 7 ∧
      (wave 7).written = 7 ∧ (infinity 7).written = 7 ∧
      (firework 7).written = 7 ∧ (tornado 7).written = 7 ∧
      (galaxy 7).written = 7 ∧ (cube 7).written ≤ 7 ∧
      (pyramid 7).written ≤ 7 ∧ (helix 7).written ≤ 7 ∧ (dna 7).written ≤ 7) :=
  ⟨by norm_num, claim2_exact_count_amended 7 (by norm_num)⟩

/-! ### Claim C4 -/

/-- C4: over any run of consecutive hand-present frames, the pinch-edge
machine of `onResults` behaves exactly as the stateless crossing
description: after each frame `isPinching` is true exactly when the filtered
pinch value exceeds 0.7, `onPinchStart` fires exactly on an upward crossing
of the threshold (so it stays true, without re-firing, until the value drops
back to ≤ 0.7), and `onPinchEnd` fires exactly on the matching downward
crossing — hence exactly once per crossing, never twice. -/
theorem claim4_pinch_hysteresis (wasPinching : Bool) (ps : List ℝ) :
    pinchTrace wasPinching ps = pinchCrossings wasPinching ps := by
  induction ps generalizing wasPinching with
  | nil => rfl
  | cons p ps ih =>
    show pinchStep wasPinching p :: pinchTrace (pinchStep wasPinching p).1 ps = _
    rw [show (pinchStep wasPinching p).1 = decide (p > 0.7) from rfl, ih]
    simp only [pinchCrossings, List.map_cons, List.zipWith_cons_cons, pinchStep]

/-! ### Claim C5 -/

/-- C5: the per-frame special-gesture classification equals, for every
combination of finger curls, pinch flag and pinch value, the first match in
the fixed priority order pinch > thumbsUp > peace > fist > open > none with
the stated curl thresholds and confidences (0.9 for thumbsUp/peace/fist,
0.8 for open, the pinch value for pinch, 0 for none). -/
theorem claim5_gesture_priority (curls : FingerCurls) (isPinching : Bool)
    (pinchValue : ℝ) :
    detectSpecialGestures curls isPinching pinchValue =
      gestureClaimSpec curls isPinching pinchValue := rfl

/-! ### Claim C10 -/

theorem detect_pinch_iff (curls : FingerCurls) (b : Bool) (pv : ℝ) :
    (detectSpecialGestures curls b pv).1 = "pinch" ↔ b = true := by
  cases b with
  | false =>
    simp only [detectSpecialGestures, Bool.false_eq_true, if_false]
    split_ifs <;> decide
  | true => simp [detectSpecialGestures]

/-- C10: in the hand-present branch of `onResults`, `detectSpecialGestures`
runs before `isPinching` is recomputed from the current frame's filtered
pinch value, so the gesture label is "pinch" exactly when the previous
frame's `isPinching` flag was set — the label lags the flag by exactly one
frame: after two consecutive hand frames the label is "pinch" iff the first
frame's filtered pinch value exceeded 0.7, regardless of the second
frame's. -/
theorem claim10_pinch_label_lag (s : GDState) (c1 c2 : FingerCurls)
    (p1 p2 : ℝ) :
    ((gestureTick s c1 p1).currentGesture = "pinch" ↔ s.isPinching = true) ∧
      (gestureTick s c1 p1).isPinching = decide (p1 > 0.7) ∧
      ((gestureTick (gestureTick s c1 p1) c2 p2).currentGesture = "pinch" ↔
        p1 > 0.7) := by
  refine ⟨detect_pinch_iff c1 s.isPinching p1, rfl, ?_⟩
  have h2 : (gestureTick (gestureTick s c1 p1) c2 p2).currentGesture =
      (detectSpecialGestures c2 (gestureTick s c1 p1).isPinching p2).1 := rfl
  rw [h2, detect_pinch_iff c2 (gestureTick s c1 p1).isPinching p2]
  show decide (p1 > 0.7) = true ↔ p1 > 0.7
  exact decide_eq_true_iff

/-! ### Claim C9 -/

theorem euroAlpha_pos (cutoff dt : ℝ) (hc : 0 < cutoff) (hdt : 0 < dt) :
    0 < euroAlpha cutoff dt ∧ euroAlpha cutoff dt < 1 := by
  unfold euroAlpha
  have hpi := Real.pi_pos
  have htau : 0 < 1 / (2 * Real.pi * cutoff) := by positivity
  have hq : 0 < 1 / (2 * Real.pi * cutoff) / dt := by positivity
  constructor
  · positivity
  · rw [div_lt_one (by linarith)]
    linarith

theorem euroFilter_between (minCutoff beta dCutoff : ℝ) (s : OneEuroState)
    (xp tp x t : ℝ) (hxp : s.xPrev = some xp) (htp : s.tPrev = some tp)
    (hmc : 0 < minCutoff) (hb : 0 ≤ beta) (ht : tp < t) :
    min xp x ≤ (euroFilter minCutoff beta dCutoff s x t).1 ∧
      (euroFilter minCutoff beta dCutoff s x t).1 ≤ max xp x := by
  obtain ⟨xo, d0, t0⟩ := s
  simp only at hxp htp
  subst hxp htp
  have hdt : ¬ t - tp ≤ 0 := by linarith
  simp only [euroFilter, hdt, if_false]
  set edx := euroAlpha dCutoff (t - tp) * ((x - xp) / (t - tp)) +
    (1 - euroAlpha dCutoff (t - tp)) * d0 with hedx
  have hcut : 0 < minCutoff + beta * |edx| := by
    have := mul_nonneg hb (abs_nonneg edx)
    linarith
  have ha := euroAlpha_pos (minCutoff + beta * |edx|) (t - tp) hcut (by linarith)
  set a := euroAlpha (minCutoff + beta * |edx|) (t - tp) with haa
  have h1 : min xp x ≤ x := min_le_right _ _
  have h2 : min xp x ≤ xp := min_le_left _ _
  have h3 : x ≤ max xp x := le_max_right _ _
  have h4 : xp ≤ max xp x := le_max_left _ _
  constructor <;> nlinarith [ha.1, ha.2]

theorem euroRun_mem (minCutoff beta dCutoff : ℝ) (hmc : 0 < minCutoff)
    (hb : 0 ≤ beta) :
    ∀ (inputs : List (ℝ × ℝ)) (s : OneEuroState),
      (∀ q ∈ inputs, 0 ≤ q.1 ∧ q.1 ≤ 1) →
      (∀ xp, s.xPrev = some xp → 0 ≤ xp ∧ xp ≤ 1) →
      ∀ y ∈ euroRun minCutoff beta dCutoff s inputs, 0 ≤ y ∧ y ≤ 1 := by
  intro inputs
  induction inputs with
  | nil => intro s _ _ y hy; simp [euroRun] at hy
  | cons q rest ih =>
    intro s hin hs y hy
    obtain ⟨x, t⟩ := q
    have hx : 0 ≤ x ∧ x ≤ 1 := hin (x, t) (List.mem_cons_self _ _)
    simp only [euroRun, List.mem_cons] at hy
    have hout : 0 ≤ (euroFilter minCutoff beta dCutoff s x t).1 ∧
        (euroFilter minCutoff beta dCutoff s x t).1 ≤ 1 := by
      obtain ⟨xo, d0, t0⟩ := s
      match hxo : xo, hto : t0 with
      | some xp, some tp =>
        have hxp := hs xp rfl
        by_cases hdt : t - tp ≤ 0
        · simpa [euroFilter, hdt] using hxp
        · have hbet := euroFilter_between minCutoff beta dCutoff
            ⟨some xp, d0, some tp⟩ xp tp x t rfl rfl hmc hb (by linarith)
          constructor
          · calc (0 : ℝ) ≤ min xp x := le_min hxp.1 hx.1
              _ ≤ _ := hbet.1
          · calc (euroFilter minCutoff beta dCutoff ⟨some xp, d0, some tp⟩ x t).1
                ≤ max xp x := hbet.2
              _ ≤ 1 := max_le hxp.2 hx.2
      | some xp, none => simpa [euroFilter] using hx
      | none, some tp => simpa [euroFilter] using hx
      | none, none => simpa [euroFilter] using hx
    rcases hy with hy | hy
    · rw [hy]; exact hout
    · refine ih _ (fun q hq => hin q (List.mem_cons_of_mem _ hq)) ?_ y hy
      obtain ⟨xo, d0, t0⟩ := s
      match hxo : xo, hto : t0 with
      | some xp, some tp =>
        have hxp := hs xp rfl
        by_cases hdt : t - tp ≤ 0
        · intro z hz
          simp only [euroFilter, hdt, if_true] at hz
          injection hz with hz
          exact hz ▸ hxp
        · intro z hz
          simp only [euroFilter, hdt, if_false] at hz
          cases hz
          simpa [euroFilter, hdt] using hout
      | some xp, none => intro z hz; cases hz; simpa [euroFilter] using hx
      | none, some tp => intro z hz; cases hz; simpa [euroFilter] using hx
      | none, none => intro z hz; cases hz; simpa [euroFilter] using hx

/-- C9: whenever a seeded One Euro filter is stepped with a strictly larger
timestamp, positive `minCutoff` and nonnegative `beta`, the output is a
convex blend of the previous smoothed value and the raw input (it lies
between them); consequently a filter started from `reset` state and fed raw
values in `[0, 1]` only ever outputs values in `[0, 1]`. -/
theorem claim9_filter_convex (minCutoff beta dCutoff : ℝ) (s : OneEuroState)
    (xp tp x t : ℝ) (hxp : s.xPrev = some xp) (htp : s.tPrev = some tp)
    (hmc : 0 < minCutoff) (hb : 0 ≤ beta) (ht : tp < t) :
    (min xp x ≤ (euroFilter minCutoff beta dCutoff s x t).1 ∧
      (euroFilter minCutoff beta dCutoff s x t).1 ≤ max xp x) ∧
      (∀ (inputs : List (ℝ × ℝ)), (∀ q ∈ inputs, 0 ≤ q.1 ∧ q.1 ≤ 1) →
        ∀ y ∈ euroRun minCutoff beta dCutoff OneEuroState.init inputs,
          0 ≤ y ∧ y ≤ 1) :=
  ⟨euroFilter_between minCutoff beta dCutoff s xp tp x t hxp htp hmc hb ht,
    fun inputs hin => euroRun_mem minCutoff beta dCutoff hmc hb inputs
      OneEuroState.init hin (fun xq h => by simp [OneEuroState.init] at h)⟩

/-- Witness for C9: the openness filter's coefficients
(`minCutoff = 1`, `beta = 0.007`) on the seeded state `xPrev = 0`,
`tPrev = 0` stepped with raw value 1 at `t = 1`. -/
theorem claim9_filter_convex_witness :
    (0 : ℝ) < 1 ∧ (0 : ℝ) ≤ 0.007 ∧ (0 : ℝ) < 1 ∧
      ((min 0 1 ≤ (euroFilter 1 0.007 1 ⟨some 0, 0, some 0⟩ 1 1).1 ∧
        (euroFilter 1 0.007 1 ⟨some 0, 0, some 0⟩ 1 1).1 ≤ max 0 1) ∧
        (∀ (inputs : List (ℝ × ℝ)), (∀ q ∈ inputs, 0 ≤ q.1 ∧ q.1 ≤ 1) →
          ∀ y ∈ euroRun 1 0.007 1 OneEuroState.init inputs,
            0 ≤ y ∧ y ≤ 1)) :=
  ⟨by norm_num, by norm_num, by norm_num,
    claim9_filter_convex 1 0.007 1 ⟨some 0, 0, some 0⟩ 0 0 1 1 rfl rfl
      (by norm_num) (by norm_num) (by norm_num)⟩

/-! ### Claim C6 -/

/-- C6 counterexample: with the last smoothed openness and pinch both equal
to 1 while a hand is detected, the very first no-hand tick already outputs
exactly the neutral values 0.5 and 0 — because `resetFilters` runs before
the neutral-value filter calls, the filters re-seed and the signal
jump-cuts to neutral in a single tick instead of relaxing smoothly toward
it (a smooth relaxation from 1 toward 0.5 would leave the output strictly
above 0.5). -/
theorem claim6_hand_loss_counterexample :
    preLossState.gestureValue = 1 ∧ preLossState.pinchValue = 1 ∧
      (noHandTick preLossState 1).1.gestureValue = 0.5 ∧
      ¬ (0.5 : ℝ) < (noHandTick preLossState 1).1.gestureValue ∧
      (noHandTick preLossState 1).1.pinchValue = 0 := by
  refine ⟨rfl, rfl, ?_, ?_, ?_⟩ <;>
    simp [noHandTick, preLossState, resetFilters, euroFilter,
      OneEuroState.init, TrackerState.init]

/-- C6 as amended: on a hand-detected → no-hand transition tick the
`onHandLost` edge fires (and does not fire again on following no-hand
ticks), the detection flags clear, both One Euro filters and the velocity
tracker are reset and the velocity record is zeroed; and because the reset
precedes the neutral-drive filter calls, the openness and pinch outputs
re-seed at exactly the neutral defaults 0.5 and 0 on the loss tick itself —
a one-tick jump to neutral rather than a gradual relaxation. -/
theorem claim6_hand_loss_amended (s : DetectorState) (t t2 : ℝ)
    (h : s.isHandDetected = true) :
    (noHandTick s t).2 = true ∧
      (noHandTick s t).1.isHandDetected = false ∧
      (noHandTick s t).1.twoHandsDetected = false ∧
      (noHandTick s t).1.gestureValue = 0.5 ∧
      (noHandTick s t).1.pinchValue = 0 ∧
      (noHandTick s t).1.palmTracker = TrackerState.init ∧
      (noHandTick s t).1.velocity = ⟨0, 0, 0, 0⟩ ∧
      (noHandTick (noHandTick s t).1 t2).2 = false := by
  refine ⟨?_, ?_, ?_, ?_, ?_, ?_, ?_, ?_⟩ <;>
    simp [noHandTick, h, resetFilters, euroFilter, OneEuroState.init,
      TrackerState.init]

/-- Witness for the amended C6 at the concrete pre-loss state. -/
theorem claim6_hand_loss_amended_witness :
    preLossState.isHandDetected = true ∧
      ((noHandTick preLossState 2).2 = true ∧
        (noHandTick preLossState 2).1.isHandDetected = false ∧
        (noHandTick preLossState 2).1.twoHandsDetected = false ∧
        (noHandTick preLossState 2).1.gestureValue = 0.5 ∧
        (noHandTick preLossState 2).1.pinchValue = 0 ∧
        (noHandTick preLossState 2).1.palmTracker = TrackerState.init ∧
        (noHandTick preLossState 2).1.velocity = ⟨0, 0, 0, 0⟩ ∧
        (noHandTick (noHandTick preLossState 2).1 3).2 = false) :=
  ⟨rfl, claim6_hand_loss_amended preLossState 2 3 rfl⟩

/-! ### Claim C7 -/

/-- C7 counterexample: on the fully degenerate landmark frame in which all
21 landmarks coincide, the thumb–index distance and the reference distance
are both zero, the normalising division is `0 / 0 = NaN`, and `NaN` passes
through `Math.min`/`Math.max` and the final subtraction — so
`calculatePinchValue` returns `NaN`, not a value in `[0, 1]`: the clamped
ratio does not resolve this degenerate case. -/
theorem claim7_degenerate_counterexample :
    calculatePinchValue (fun _ => ⟨0, 0, 0⟩) = JsNum.nan := by
  norm_num [calculatePinchValue, distance3D, jsDiv, jsSubC, jsDivPosC,
    jsMinC, jsMaxC, jsOneSub, Real.sqrt_zero]

theorem angleBetweenVectors_smul (k : ℝ) (hk : 0 < k)
    (a1 a2 a3 b1 b2 b3 : ℝ) :
    angleBetweenVectors ⟨k * a1, k * a2, k * a3⟩ ⟨k * b1, k * b2, k * b3⟩ =
      angleBetweenVectors ⟨a1, a2, a3⟩ ⟨b1, b2, b3⟩ := by
  unfold angleBetweenVectors
  dsimp only
  have hs1 : Real.sqrt (k * a1 * (k * a1) + k * a2 * (k * a2) + k * a3 * (k * a3)) =
      k * Real.sqrt (a1 * a1 + a2 * a2 + a3 * a3) := by
    rw [show k * a1 * (k * a1) + k * a2 * (k * a2) + k * a3 * (k * a3) =
        k ^ 2 * (a1 * a1 + a2 * a2 + a3 * a3) from by ring,
      Real.sqrt_mul (sq_nonneg k), Real.sqrt_sq hk.le]
  have hs2 : Real.sqrt (k * b1 * (k * b1) + k * b2 * (k * b2) + k * b3 * (k * b3)) =
      k * Real.sqrt (b1 * b1 + b2 * b2 + b3 * b3) := by
    rw [show k * b1 * (k * b1) + k * b2 * (k * b2) + k * b3 * (k * b3) =
        k ^ 2 * (b1 * b1 + b2 * b2 + b3 * b3) from by ring,
      Real.sqrt_mul (sq_nonneg k), Real.sqrt_sq hk.le]
  rw [hs1, hs2]
  have hcond : (k * Real.sqrt (a1 * a1 + a2 * a2 + a3 * a3) = 0 ∨
      k * Real.sqrt (b1 * b1 + b2 * b2 + b3 * b3) = 0) ↔
      (Real.sqrt (a1 * a1 + a2 * a2 + a3 * a3) = 0 ∨
        Real.sqrt (b1 * b1 + b2 * b2 + b3 * b3) = 0) := by
    simp [mul_eq_zero, hk.ne']
  simp only [hcond]
  by_cases hz : Real.sqrt (a1 * a1 + a2 * a2 + a3 * a3) = 0 ∨
      Real.sqrt (b1 * b1 + b2 * b2 + b3 * b3) = 0
  · rw [if_pos hz, if_pos hz]
  · rw [if_neg hz, if_neg hz]
    congr 2
    rw [show k * Real.sqrt (a1 * a1 + a2 * a2 + a3 * a3) *
        (k * Real.sqrt (b1 * b1 + b2 * b2 + b3 * b3)) =
        k ^ 2 * (Real.sqrt (a1 * a1 + a2 * a2 + a3 * a3) *
          Real.sqrt (b1 * b1 + b2 * b2 + b3 * b3)) from by ring,
      show k * a1 * (k * b1) + k * a2 * (k * b2) + k * a3 * (k * b3) =
        k ^ 2 * (a1 * b1 + a2 * b2 + a3 * b3) from by ring,
      mul_div_mul_left _ _ (by positivity : (k : ℝ) ^ 2 ≠ 0)]

/-- C7 as amended: the classifier's geometric fallbacks work except in one
doubly degenerate case.  A zero-length joint vector yields the maximal curl
angle `π` from `angleBetweenVectors`.  In `calculatePinchValue`, whenever
the reference distance is nonzero the clamped ratio yields a value in
`[0, 1]`; when the reference distance is zero but the thumb–index distance
is not, the ratio is `+Infinity` and the clamp still yields the in-range
value 0; only when both distances are zero (all four involved landmarks
pairwise coincident) does `0 / 0 = NaN` escape the clamp (see the
counterexample). -/
theorem claim7_degenerate_amended :
    (∀ v1 v2 : V3, v1 = ⟨0, 0, 0⟩ ∨ v2 = ⟨0, 0, 0⟩ →
      angleBetweenVectors v1 v2 = Real.pi) ∧
      (∀ lm : Landmarks, distance3D (lm 5) (lm 0) ≠ 0 →
        ∃ r, calculatePinchValue lm = JsNum.val r ∧ 0 ≤ r ∧ r ≤ 1) ∧
      (∀ lm : Landmarks, distance3D (lm 5) (lm 0) = 0 →
        distance3D (lm 4) (lm 8) ≠ 0 → calculatePinchValue lm = JsNum.val 0) := by
  refine ⟨?_, ?_, ?_⟩
  · intro v1 v2 h
    rcases h with rfl | rfl <;> simp [angleBetweenVectors, Real.sqrt_zero]
  · intro lm h
    refine ⟨1 - max 0 (min 1 ((distance3D (lm 4) (lm 8) /
      distance3D (lm 5) (lm 0) - 0.1) / 0.7)), ?_, ?_, ?_⟩
    · simp [calculatePinchValue, jsDiv, h, jsSubC, jsDivPosC, jsMinC, jsMaxC,
        jsOneSub]
    · have h2 : max 0 (min 1 ((distance3D (lm 4) (lm 8) /
          distance3D (lm 5) (lm 0) - 0.1) / 0.7)) ≤ 1 :=
        max_le zero_le_one (min_le_left _ _)
      linarith
    · have h1 : (0 : ℝ) ≤ max 0 (min 1 ((distance3D (lm 4) (lm 8) /
          distance3D (lm 5) (lm 0) - 0.1) / 0.7)) := le_max_left _ _
      linarith
  · intro lm href hd
    have hdpos : 0 < distance3D (lm 4) (lm 8) :=
      lt_of_le_of_ne (Real.sqrt_nonneg _) (Ne.symm hd)
    simp only [calculatePinchValue, jsDiv, href, if_pos, hd, if_false,
      hdpos, if_true, jsSubC, jsDivPosC, jsMinC, jsMaxC, jsOneSub]
    norm_num

/-- Witness for the amended C7: the zero vector against `(1,0,0)`; a frame
with reference distance 1; and a frame with zero reference distance but
thumb–index distance 1. -/
theorem claim7_degenerate_amended_witness :
    angleBetweenVectors ⟨0, 0, 0⟩ ⟨1, 0, 0⟩ = Real.pi ∧
      (∃ r, calculatePinchValue
        (fun i => if i = 0 then ⟨0, 0, 0⟩ else ⟨1, 0, 0⟩) = JsNum.val r ∧
        0 ≤ r ∧ r ≤ 1) ∧
      calculatePinchValue
        (fun i => if i = 4 then ⟨1, 0, 0⟩ else ⟨0, 0, 0⟩) = JsNum.val 0 := by
  refine ⟨claim7_degenerate_amended.1 _ _ (Or.inl rfl), ?_, ?_⟩
  · refine claim7_degenerate_amended.2.1 _ ?_
    norm_num [distance3D, Real.sqrt_one,
      if_neg (by decide : ¬ (5 : Fin 21) = 0)]
  · refine claim7_degenerate_amended.2.2 _ ?_ ?_
    · norm_num [distance3D, Real.sqrt_zero,
        if_neg (by decide : ¬ (5 : Fin 21) = 4),
        if_neg (by decide : ¬ (0 : Fin 21) = 4)]
    · norm_num [distance3D, Real.sqrt_one,
        if_neg (by decide : ¬ (8 : Fin 21) = 4)]

/-! ### Claim C8 -/

theorem fingerCurl_scaleTranslate (k tx ty tz m1 m2 m3 p1 p2 p3 d1 d2 d3
    q1 q2 q3 : ℝ) (hk : 0 < k) :
    calculateFingerCurl
      ⟨k * m1 + tx, k * m2 + ty, k * m3 + tz⟩
      ⟨k * p1 + tx, k * p2 + ty, k * p3 + tz⟩
      ⟨k * d1 + tx, k * d2 + ty, k * d3 + tz⟩
      ⟨k * q1 + tx, k * q2 + ty, k * q3 + tz⟩ =
      calculateFingerCurl ⟨m1, m2, m3⟩ ⟨p1, p2, p3⟩ ⟨d1, d2, d3⟩
        ⟨q1, q2, q3⟩ := by
  unfold calculateFingerCurl
  dsimp only
  rw [show k * p1 + tx - (k * m1 + tx) = k * (p1 - m1) from by ring,
    show k * p2 + ty - (k * m2 + ty) = k * (p2 - m2) from by ring,
    show k * p3 + tz - (k * m3 + tz) = k * (p3 - m3) from by ring,
    show k * d1 + tx - (k * p1 + tx) = k * (d1 - p1) from by ring,
    show k * d2 + ty - (k * p2 + ty) = k * (d2 - p2) from by ring,
    show k * d3 + tz - (k * p3 + tz) = k * (d3 - p3) from by ring,
    show k * q1 + tx - (k * d1 + tx) = k * (q1 - d1) from by ring,
    show k * q2 + ty - (k * d2 + ty) = k * (q2 - d2) from by ring,
    show k * q3 + tz - (k * d3 + tz) = k * (q3 - d3) from by ring,
    angleBetweenVectors_smul k hk (p1 - m1) (p2 - m2) (p3 - m3) (d1 - p1)
      (d2 - p2) (d3 - p3),
    angleBetweenVectors_smul k hk (d1 - p1) (d2 - p2) (d3 - p3) (q1 - d1)
      (q2 - d2) (q3 - d3)]

/-- C8: applying a uniform scale `k > 0` and a translation to all 21
landmarks leaves every one of the five finger-curl values unchanged (the
curl is angle-based, and angles are invariant under positive scaling and
translation of the joint difference vectors). -/
theorem claim8_curl_invariance (k : ℝ) (hk : 0 < k) (tv : V3)
    (lm : Landmarks) :
    calculateFingerCurls (scaleTranslate k tv lm) = calculateFingerCurls lm := by
  unfold calculateFingerCurls scaleTranslate
  congr 1 <;>
    exact fingerCurl_scaleTranslate k tv.x tv.y tv.z _ _ _ _ _ _ _ _ _ _ _ _ hk

/-- Witness for C8 at `k = 2`, translation `(1, 2, 3)` and a concrete
frame. -/
theorem claim8_curl_invariance_witness :
    (0 : ℝ) < 2 ∧
      calculateFingerCurls (scaleTranslate 2 ⟨1, 2, 3⟩ (fun _ => ⟨0, 0, 0⟩)) =
        calculateFingerCurls (fun _ => ⟨0, 0, 0⟩) :=
  ⟨by norm_num, claim8_curl_invariance 2 (by norm_num) ⟨1, 2, 3⟩ _⟩

/-! ### Claim C3 -/

theorem psTraj_succ (damping morphForce currentScale explosionForce
    turbulence audioInfluence idleAmplitude idleSpeed : ℝ) (times : ℕ → ℝ)
    (rnds : ℕ → V3) (i : ℕ) (base p0 v0 : V3) (n : ℕ) :
    psTraj damping morphForce currentScale explosionForce turbulence
      audioInfluence idleAmplitude idleSpeed times rnds i base p0 v0 (n + 1) =
      psTick damping morphForce currentScale explosionForce turbulence
        audioInfluence idleAmplitude idleSpeed (times n) i (rnds n) base
        (psTraj damping morphForce currentScale explosionForce turbulence
          audioInfluence idleAmplitude idleSpeed times rnds i base p0 v0 n).1
        (psTraj damping morphForce currentScale explosionForce turbulence
          audioInfluence idleAmplitude idleSpeed times rnds i base p0 v0 n).2 :=
  rfl

/-- With zero explosion force, turbulence, audio influence and idle
amplitude, one `updatePositions` tick is exactly damped Euler integration of
the morph force. -/
theorem psTick_zero_forcing (d m scale idleSpeed time : ℝ) (i : ℕ)
    (rnd base pos vel : V3) :
    psTick d m scale 0 0 0 0 idleSpeed time i rnd base pos vel =
      (⟨pos.x + (vel.x + (base.x * scale - pos.x) * m) * d,
        pos.y + (vel.y + (base.y * scale - pos.y) * m) * d,
        pos.z + (vel.z + (base.z * scale - pos.z) * m) * d⟩,
       ⟨(vel.x + (base.x * scale - pos.x) * m) * d,
        (vel.y + (base.y * scale - pos.y) * m) * d,
        (vel.z + (base.z * scale - pos.z) * m) * d⟩) := by
  unfold psTick
  dsimp only
  simp only [Prod.mk.injEq, V3.mk.injEq]
  refine ⟨⟨?_, ?_, ?_⟩, ?_, ?_, ?_⟩ <;> ring

/-- C3 counterexample: damping 0.95, morph force 0.9 ∈ (0, 1), constant
target `(1, 0, 0)` (base `(1,0,0)`, scale 1), start at rest at `(2, 0, 0)`,
all external forcing zero.  The distance to the target is `0.145` after the
first tick but `0.791225` after the second — the per-tick distance sequence
is *not* non-increasing after the first tick (the damped morph spring
overshoots and oscillates). -/
theorem claim3_converge_counterexample :
    distance3D (psTraj 0.95 0.9 1 0 0 0 0 0 (fun _ => 0) (fun _ => ⟨0, 0, 0⟩)
        0 ⟨1, 0, 0⟩ ⟨2, 0, 0⟩ ⟨0, 0, 0⟩ 1).1 ⟨1, 0, 0⟩ <
      distance3D (psTraj 0.95 0.9 1 0 0 0 0 0 (fun _ => 0) (fun _ => ⟨0, 0, 0⟩)
        0 ⟨1, 0, 0⟩ ⟨2, 0, 0⟩ ⟨0, 0, 0⟩ 2).1 ⟨1, 0, 0⟩ := by
  have h1 : psTraj 0.95 0.9 1 0 0 0 0 0 (fun _ => 0) (fun _ => ⟨0, 0, 0⟩)
      0 ⟨1, 0, 0⟩ ⟨2, 0, 0⟩ ⟨0, 0, 0⟩ 1 =
      (⟨229 / 200, 0, 0⟩, ⟨-(171 / 200), 0, 0⟩) := by
    rw [show (1 : ℕ) = 0 + 1 from rfl, psTraj_succ, psTick_zero_forcing]
    simp only [psTraj, Prod.mk.injEq, V3.mk.injEq]
    norm_num
  have h2 : psTraj 0.95 0.9 1 0 0 0 0 0 (fun _ => 0) (fun _ => ⟨0, 0, 0⟩)
      0 ⟨1, 0, 0⟩ ⟨2, 0, 0⟩ ⟨0, 0, 0⟩ 2 =
      (⟨8351 / 40000, 0, 0⟩, ⟨-(37449 / 40000), 0, 0⟩) := by
    rw [show (2 : ℕ) = 1 + 1 from rfl, psTraj_succ, psTick_zero_forcing, h1]
    simp only [Prod.mk.injEq, V3.mk.injEq]
    norm_num
  rw [h1, h2]
  unfold distance3D
  dsimp only
  apply Real.sqrt_lt_sqrt <;> norm_num

theorem errSeq_rec (d m e0 v0 : ℝ) (n : ℕ) :
    (errSeq d m e0 v0 (n + 2)).1 =
      (1 + d - d * m) * (errSeq d m e0 v0 (n + 1)).1 -
        d * (errSeq d m e0 v0 n).1 := by
  simp only [errSeq, errStep]
  ring

/-- The characteristic roots of the damped-spring recurrence
`e'' = (1 + d - d m) e' - d e` both lie strictly inside the unit circle for
`0 < d < 1`, `0 < m < 1`. -/
theorem quad_roots (d m : ℝ) (hd0 : 0 < d) (hd1 : d < 1) (hm0 : 0 < m)
    (hm1 : m < 1) :
    ∃ l1 l2 : ℂ, l1 + l2 = ((1 + d - d * m : ℝ) : ℂ) ∧
      l1 * l2 = ((d : ℝ) : ℂ) ∧ ‖l1‖ < 1 ∧ ‖l2‖ < 1 := by
  set t : ℝ := 1 + d - d * m with ht
  have hdm : 0 < d * m := mul_pos hd0 hm0
  have hdm1 : d * m < 1 := by nlinarith
  have ht0 : 0 < t := by nlinarith
  have ht2 : t < 2 := by nlinarith
  have htd : t < 1 + d := by nlinarith
  by_cases hdisc : 0 ≤ t ^ 2 - 4 * d
  · set s : ℝ := Real.sqrt (t ^ 2 - 4 * d) with hs
    have hs0 : 0 ≤ s := Real.sqrt_nonneg _
    have hslt : s < 2 - t := by
      rw [hs]
      rw [Real.sqrt_lt' (by linarith)]
      nlinarith
    refine ⟨(((t + s) / 2 : ℝ) : ℂ), (((t - s) / 2 : ℝ) : ℂ), ?_, ?_, ?_, ?_⟩
    · push_cast
      ring
    · have hss : s ^ 2 = t ^ 2 - 4 * d := Real.sq_sqrt hdisc
      have hprod : ((t + s) / 2) * ((t - s) / 2) = d := by
        linear_combination (-(1 : ℝ) / 4) * hss
      push_cast
      exact_mod_cast congrArg (fun x : ℝ => (x : ℂ)) hprod
    · rw [Complex.norm_real, Real.norm_eq_abs, abs_lt]
      constructor <;> nlinarith
    · rw [Complex.norm_real, Real.norm_eq_abs, abs_lt]
      constructor <;> nlinarith
  · push_neg at hdisc
    set s : ℝ := Real.sqrt (4 * d - t ^ 2) with hs
    have hs0 : 0 ≤ s := Real.sqrt_nonneg _
    have hss : s ^ 2 = 4 * d - t ^ 2 := Real.sq_sqrt (by linarith)
    refine ⟨⟨t / 2, s / 2⟩, ⟨t / 2, -(s / 2)⟩, ?_, ?_, ?_, ?_⟩
    · apply Complex.ext <;>
        simp [Complex.add_re, Complex.add_im, Complex.ofReal_re,
          Complex.ofReal_im]
    · apply Complex.ext
      · simp only [Complex.mul_re, Complex.ofReal_re]
        linear_combination (1 / 4 : ℝ) * hss
      · simp only [Complex.mul_im, Complex.ofReal_im]
        ring
    · have hn : ‖(⟨t / 2, s / 2⟩ : ℂ)‖ ^ 2 = (t / 2) ^ 2 + (s / 2) ^ 2 := by
        rw [Complex.norm_eq_abs, Complex.sq_abs]
        simp only [Complex.normSq_mk]
        ring
      nlinarith [norm_nonneg (⟨t / 2, s / 2⟩ : ℂ), hn]
    · have hn : ‖(⟨t / 2, -(s / 2)⟩ : ℂ)‖ ^ 2 = (t / 2) ^ 2 + (s / 2) ^ 2 := by
        rw [Complex.norm_eq_abs, Complex.sq_abs]
        simp only [Complex.normSq_mk]
        ring
      nlinarith [norm_nonneg (⟨t / 2, -(s / 2)⟩ : ℂ), hn]

/-- Solution bound for the recurrence: with both characteristic roots
strictly inside the unit circle, the error sequence tends to zero. -/
theorem err_tendsto_of_roots (d m e0 v0 : ℝ) (l1 l2 : ℂ)
    (hsum : l1 + l2 = ((1 + d - d * m : ℝ) : ℂ))
    (hprod : l1 * l2 = ((d : ℝ) : ℂ)) (h1 : ‖l1‖ < 1) (h2 : ‖l2‖ < 1)
    (hd0 : 0 < d) :
    Filter.Tendsto (fun n => (errSeq d m e0 v0 n).1) Filter.atTop (nhds 0) := by
  set e : ℕ → ℂ := fun n => (((errSeq d m e0 v0 n).1 : ℝ) : ℂ) with he
  have hrec : ∀ n, e (n + 2) = (l1 + l2) * e (n + 1) - (l1 * l2) * e n := by
    intro n
    rw [hsum, hprod]
    have hr := errSeq_rec d m e0 v0 n
    simp only [he]
    exact_mod_cast congrArg (fun x : ℝ => (x : ℂ)) hr
  set f : ℕ → ℂ := fun n => e (n + 1) - l1 * e n with hf
  have hfstep : ∀ n, f (n + 1) = l2 * f n := by
    intro n
    simp only [hf]
    linear_combination hrec n
  have hfeq : ∀ n, f n = l2 ^ n * f 0 := by
    intro n
    induction n with
    | zero => simp
    | succ k ih => rw [hfstep k, ih]; ring
  have hstep : ∀ n, e (n + 1) = l1 * e n + l2 ^ n * f 0 := by
    intro n
    have := hfeq n
    simp only [hf] at this
    linear_combination this
  set rho : ℝ := max ‖l1‖ ‖l2‖ with hrho
  have hl1ne : l1 ≠ 0 := by
    intro h0
    rw [h0, zero_mul] at hprod
    have hdc : ((d : ℝ) : ℂ) ≠ 0 := by
      exact_mod_cast hd0.ne'
    exact hdc hprod.symm
  have hrho0 : 0 < rho :=
    lt_of_lt_of_le (norm_pos_iff.mpr hl1ne) (le_max_left _ _)
  have hrho1 : rho < 1 := max_lt h1 h2
  have hbound : ∀ n, ‖e n‖ ≤ rho ^ n * ‖e 0‖ + n * rho ^ n * (‖f 0‖ / rho) := by
    intro n
    induction n with
    | zero => simp
    | succ k ih =>
      have h1k : ‖l1‖ ≤ rho := le_max_left _ _
      have h2k : ‖l2‖ ≤ rho := le_max_right _ _
      push_cast
      calc ‖e (k + 1)‖ = ‖l1 * e k + l2 ^ k * f 0‖ := by rw [hstep k]
        _ ≤ ‖l1 * e k‖ + ‖l2 ^ k * f 0‖ := norm_add_le _ _
        _ = ‖l1‖ * ‖e k‖ + ‖l2‖ ^ k * ‖f 0‖ := by
            rw [norm_mul, norm_mul, norm_pow]
        _ ≤ rho * ‖e k‖ + rho ^ k * ‖f 0‖ := by
            gcongr
        _ ≤ rho * (rho ^ k * ‖e 0‖ + k * rho ^ k * (‖f 0‖ / rho)) +
              rho ^ k * ‖f 0‖ := by
            have hmul := mul_le_mul_of_nonneg_left ih hrho0.le
            linarith
        _ = rho ^ (k + 1) * ‖e 0‖ + (k + 1) * rho ^ (k + 1) * (‖f 0‖ / rho) := by
            field_simp
            ring
  have hlim1 : Filter.Tendsto (fun n : ℕ => rho ^ n * ‖e 0‖)
      Filter.atTop (nhds 0) := by
    simpa using
      (tendsto_pow_atTop_nhds_zero_of_lt_one hrho0.le hrho1).mul_const ‖e 0‖
  have hlim2 : Filter.Tendsto (fun n : ℕ => (n : ℝ) * rho ^ n * (‖f 0‖ / rho))
      Filter.atTop (nhds 0) := by
    simpa using
      (tendsto_self_mul_const_pow_of_lt_one hrho0.le hrho1).mul_const
        (‖f 0‖ / rho)
  have hlim : Filter.Tendsto
      (fun n : ℕ => rho ^ n * ‖e 0‖ + n * rho ^ n * (‖f 0‖ / rho))
      Filter.atTop (nhds 0) := by
    simpa using hlim1.add hlim2
  have henorm : Filter.Tendsto (fun n => ‖e n‖) Filter.atTop (nhds 0) :=
    squeeze_zero (fun n => norm_nonneg _) hbound hlim
  rw [tendsto_zero_iff_norm_tendsto_zero]
  convert henorm using 2 with n
  simp only [he, Complex.norm_real]

/-- Bridge: under zero forcing the trajectory's per-axis error and velocity
follow the scalar recurrence `errSeq`. -/
theorem psTraj_err (d m scale idleSpeed : ℝ) (times : ℕ → ℝ) (rnds : ℕ → V3)
    (i : ℕ) (base p0 v0 : V3) (n : ℕ) :
    ((psTraj d m scale 0 0 0 0 idleSpeed times rnds i base p0 v0 n).1.x -
        base.x * scale = (errSeq d m (p0.x - base.x * scale) v0.x n).1 ∧
      (psTraj d m scale 0 0 0 0 idleSpeed times rnds i base p0 v0 n).2.x =
        (errSeq d m (p0.x - base.x * scale) v0.x n).2) ∧
      ((psTraj d m scale 0 0 0 0 idleSpeed times rnds i base p0 v0 n).1.y -
        base.y * scale = (errSeq d m (p0.y - base.y * scale) v0.y n).1 ∧
      (psTraj d m scale 0 0 0 0 idleSpeed times rnds i base p0 v0 n).2.y =
        (errSeq d m (p0.y - base.y * scale) v0.y n).2) ∧
      ((psTraj d m scale 0 0 0 0 idleSpeed times rnds i base p0 v0 n).1.z -
        base.z * scale = (errSeq d m (p0.z - base.z * scale) v0.z n).1 ∧
      (psTraj d m scale 0 0 0 0 idleSpeed times rnds i base p0 v0 n).2.z =
        (errSeq d m (p0.z - base.z * scale) v0.z n).2) := by
  induction n with
  | zero => simp [psTraj, errSeq]
  | succ k ih =>
    obtain ⟨⟨hex, hvx⟩, ⟨hey, hvy⟩, ⟨hez, hvz⟩⟩ := ih
    rw [psTraj_succ, psTick_zero_forcing]
    simp only [errSeq, errStep]
    refine ⟨⟨?_, ?_⟩, ⟨?_, ?_⟩, ⟨?_, ?_⟩⟩
    · linear_combination (1 - d * m) * hex + d * hvx
    · linear_combination (-(d * m)) * hex + d * hvx
    · linear_combination (1 - d * m) * hey + d * hvy
    · linear_combination (-(d * m)) * hey + d * hvy
    · linear_combination (1 - d * m) * hez + d * hvz
    · linear_combination (-(d * m)) * hez + d * hvz

/-- C3 as amended: with damping 0.95, constant base target, morph force in
(0, 1) and zero turbulence, explosion force, audio influence and idle
amplitude, the particle position still converges to the target — the
distance to the target tends to 0 — but (see the counterexample) the
per-tick distance sequence need not be non-increasing after the first tick:
the damped morph spring can overshoot and oscillate while its envelope
decays. -/
theorem claim3_converge_amended (m scale idleSpeed : ℝ) (times : ℕ → ℝ)
    (rnds : ℕ → V3) (i : ℕ) (base p0 v0 : V3) (hm0 : 0 < m) (hm1 : m < 1) :
    Filter.Tendsto (fun n => distance3D
        (psTraj 0.95 m scale 0 0 0 0 idleSpeed times rnds i base p0 v0 n).1
        ⟨base.x * scale, base.y * scale, base.z * scale⟩)
      Filter.atTop (nhds 0) := by
  obtain ⟨l1, l2, hsum, hprod, h1, h2⟩ :=
    quad_roots 0.95 m (by norm_num) (by norm_num) hm0 hm1
  have hx := err_tendsto_of_roots 0.95 m (p0.x - base.x * scale) v0.x l1 l2
    hsum hprod h1 h2 (by norm_num)
  have hy := err_tendsto_of_roots 0.95 m (p0.y - base.y * scale) v0.y l1 l2
    hsum hprod h1 h2 (by norm_num)
  have hz := err_tendsto_of_roots 0.95 m (p0.z - base.z * scale) v0.z l1 l2
    hsum hprod h1 h2 (by norm_num)
  have hsq : Filter.Tendsto (fun n =>
      (errSeq 0.95 m (p0.x - base.x * scale) v0.x n).1 *
        (errSeq 0.95 m (p0.x - base.x * scale) v0.x n).1 +
      (errSeq 0.95 m (p0.y - base.y * scale) v0.y n).1 *
        (errSeq 0.95 m (p0.y - base.y * scale) v0.y n).1 +
      (errSeq 0.95 m (p0.z - base.z * scale) v0.z n).1 *
        (errSeq 0.95 m (p0.z - base.z * scale) v0.z n).1)
      Filter.atTop (nhds 0) := by
    have := ((hx.mul hx).add (hy.mul hy)).add (hz.mul hz)
    simpa using this
  have hroot : Filter.Tendsto (fun n => Real.sqrt
      ((errSeq 0.95 m (p0.x - base.x * scale) v0.x n).1 *
        (errSeq 0.95 m (p0.x - base.x * scale) v0.x n).1 +
      (errSeq 0.95 m (p0.y - base.y * scale) v0.y n).1 *
        (errSeq 0.95 m (p0.y - base.y * scale) v0.y n).1 +
      (errSeq 0.95 m (p0.z - base.z * scale) v0.z n).1 *
        (errSeq 0.95 m (p0.z - base.z * scale) v0.z n).1))
      Filter.atTop (nhds 0) := by
    simpa [Real.sqrt_zero] using hsq.sqrt
  refine Filter.Tendsto.congr ?_ hroot
  intro n
  obtain ⟨⟨hex, _⟩, ⟨hey, _⟩, ⟨hez, _⟩⟩ :=
    psTraj_err 0.95 m scale idleSpeed times rnds i base p0 v0 n
  unfold distance3D
  dsimp only
  rw [hex, hey, hez]

/-- Witness for the amended C3 at morph force 1/2 and a concrete
configuration. -/
theorem claim3_converge_amended_witness :
    (0 : ℝ) < 1 / 2 ∧ (1 / 2 : ℝ) < 1 ∧
      Filter.Tendsto (fun n => distance3D
        (psTraj 0.95 (1 / 2) 1 0 0 0 0 0 (fun _ => 0) (fun _ => ⟨0, 0, 0⟩)
          0 ⟨1, 0, 0⟩ ⟨2, 0, 0⟩ ⟨0, 0, 0⟩ n).1
        ⟨(1 : ℝ) * 1, (0 : ℝ) * 1, (0 : ℝ) * 1⟩)
      Filter.atTop (nhds 0) :=
  ⟨by norm_num, by norm_num,
    claim3_converge_amended (1 / 2) 1 0 (fun _ => 0) (fun _ => ⟨0, 0, 0⟩) 0
      ⟨1, 0, 0⟩ ⟨2, 0, 0⟩ ⟨0, 0, 0⟩ (by norm_num) (by norm_num)⟩

end Aether
